import Mathlib

/-!
Shallow embedding of the contract_service repository
(src/contracts/views.py and src/contracts/gemini_helper.py).

Python dictionaries coming from external JSON services are modelled as
association lists of string keys (`PDict`); Python `None` is modelled
explicitly.  Fallible Python code (code that can raise) is modelled with
`Except PyErr`.  External collaborators that are out of scope per the spec
(the HTTP services, the Gemini model, the Django ORM store, the crypto
utilities in the absent `utils.py`) are modelled as oracle inputs: the
embedding is parametric in their results, and the theorems quantify over
them or instantiate them concretely.
-/

namespace ContractService

/-- Exceptions that the embedded code can raise. -/
inductive PyErr where
  /-- `AttributeError`, e.g. calling `.get` on `None` or on a `list`. -/
  | attributeError
  /-- `ValueError(msg)` (also covers `binascii.Error`, its subclass). -/
  | valueError (msg : String)
  /-- `json.JSONDecodeError` from `json.loads`. -/
  | jsonDecodeError
  /-- Django `MultipleObjectsReturned` from `Contract.objects.get`. -/
  | multipleObjects
  /-- failure of the external Gemini synthesis call. -/
  | synthesisError
  /-- failure of the underlying store on create/save. -/
  | storeError
deriving DecidableEq, Repr

/-- A JSON-ish value stored in a fetched mapping. -/
inductive PVal where
  | str (s : String)
  | obj (fields : List (String × PVal))
  /-- Python `None` as a dictionary value. -/
  | pynull

/-- A Python dict with string keys, as returned by the external services. -/
abbrev PDict := List (String × PVal)

/-- `d.get(k)` returning the value when the key is present. -/
def dictGet (d : PDict) (k : String) : Option PVal :=
  (d.find? (fun kv => kv.1 == k)).map (fun kv => kv.2)

/-- How an f-string renders a dictionary value (`str(v)`).  A nested dict
would render as its Python repr; no claim inspects that case, so it is
abstracted to a fixed placeholder. -/
def pvalText : PVal → String
  | .str s => s
  | .pynull => "None"
  | .obj _ => "\x7b...\x7d"

/-- `d.get(k, "")` as rendered into the prompt f-string. -/
def getStr (d : PDict) (k : String) : String :=
  match dictGet d k with
  | some v => pvalText v
  | none => ""

/-- A fetched profile payload as `fetch_profile` returns it:
`None` (any fetch failure), a JSON array, or a JSON object. -/
inductive ProfilePayload where
  | pyNone
  | seq (l : List PDict)
  | map (d : PDict)

/-- `GeminiHelper._sanitize_profile` (src/contracts/gemini_helper.py:14-18):
`profile[0] if profile else {}` when the payload is a list, otherwise
`profile or {}` (Python truthiness: `None` and the empty dict give `{}`). -/
def sanitize_profile : ProfilePayload → PDict
  | .seq l => match l with
    | [] => []
    | d :: _ => d
  | .map d => match d with
    | [] => []
    | d@(_ :: _) => d
  | .pyNone => []

/-- The equipment argument reaching `_build_prompt`: `None` (single fetch
failed, or the event had no equipment), a dict (single fetch succeeded), or
a list of per-identifier results (event carried a list). -/
inductive EquipInfo where
  | pyNone
  | record (d : PDict)
  | listOf (l : List EquipInfo)

/-- `equipment_info.get(k, "")` in the prompt: only a dict has `.get`;
`None` and `list` raise `AttributeError`. -/
def equipGetStr (e : EquipInfo) (k : String) : Except PyErr String :=
  match e with
  | .record d => .ok (getStr d k)
  | .pyNone => .error .attributeError
  | .listOf _ => .error .attributeError

/-- `profile.get("address", {}).get(k, "")`: when the "address" key is
absent the default `{}` yields `""`; when its value is not a dict, the
second `.get` raises `AttributeError`. -/
def addrGetStr (d : PDict) (k : String) : Except PyErr String :=
  match dictGet d "address" with
  | none => .ok ""
  | some (.obj a) => .ok (getStr a k)
  | some (.str _) => .error .attributeError
  | some .pynull => .error .attributeError

/-- The three profile lines of the prompt (shared shape of the
"Owner Profile" and "Client Profile" sections of `_build_prompt`). -/
def profileBlock (p : PDict) : Except PyErr String := do
  let street ← addrGetStr p "street"
  let city ← addrGetStr p "city"
  let state ← addrGetStr p "state"
  let postal ← addrGetStr p "postal_code"
  let country ← addrGetStr p "country"
  return "- Full Name: " ++ getStr p "first_name" ++ " " ++ getStr p "last_name"
    ++ "\n- Phone: " ++ getStr p "phone"
    ++ "\n- Address: " ++ street ++ ", " ++ city ++ ", " ++ state ++ ", "
    ++ postal ++ ", " ++ country ++ "\n"

/-- How the f-string renders `contract_data.get(k)` (no default): a missing
key renders as `None`. -/
def optText : Option String → String
  | some s => s
  | none => "None"

/-- How the f-string renders the numeric `total_value` (or `None`). -/
def numText : Option Int → String
  | some v => toString v
  | none => "None"

/-- The `equipment` field of the queue event: absent, a single identifier,
or a list of identifiers. -/
inductive EquipField where
  | pyNone
  | single (s : String)
  | multi (l : List String)
deriving DecidableEq, Repr

/-- The `contract_data` dict built in the consumer callback
(src/contracts/views.py:94-102). -/
structure ContractData where
  owner_name : Option String
  client_name : Option String
  equipment : EquipField
  start_date : Option String
  end_date : Option String
  total_value : Option Int
  details : String

/-- `GeminiHelper._build_prompt` (src/contracts/gemini_helper.py:20-61).
The owner and client payloads are sanitized; the equipment argument is
not, so `.get` on an absent (`None`) or list-shaped equipment raises
`AttributeError`.  The result is the exact prompt text of the source
f-string. -/
def build_prompt (contract_data : ContractData) (profile_owner profile_client : ProfilePayload)
    (equipment_info : EquipInfo) : Except PyErr String := do
  let po := sanitize_profile profile_owner
  let pc := sanitize_profile profile_client
  let ownerB ← profileBlock po
  let clientB ← profileBlock pc
  let eqName ← equipGetStr equipment_info "stuffname"
  let eqBrand ← equipGetStr equipment_info "brand"
  let eqLoc ← equipGetStr equipment_info "location"
  let eqPrice ← equipGetStr equipment_info "price_per_day"
  let eqCond ← equipGetStr equipment_info "state"
  let eqRental ← equipGetStr equipment_info "rental_location"
  let eqShort ← equipGetStr equipment_info "short_description"
  let eqDetail ← equipGetStr equipment_info "detailed_description"
  return "\nGenerate a professional HTML equipment rental contract based on the following data:\n"
    ++ "\n📄 Contract Details:\n"
    ++ "- Owner Name: " ++ optText contract_data.owner_name ++ "\n"
    ++ "- Client Name: " ++ optText contract_data.client_name ++ "\n"
    ++ "- Start Date: " ++ optText contract_data.start_date ++ "\n"
    ++ "- End Date: " ++ optText contract_data.end_date ++ "\n"
    ++ "- Total Value: " ++ numText contract_data.total_value ++ " TND\n"
    ++ "\n👤 Owner Profile:\n" ++ ownerB
    ++ "\n👤 Client Profile:\n" ++ clientB
    ++ "\n🛠️ Equipment Information:\n"
    ++ "- Name: " ++ eqName ++ "\n"
    ++ "- Brand: " ++ eqBrand ++ "\n"
    ++ "- Location: " ++ eqLoc ++ "\n"
    ++ "- Price per day: " ++ eqPrice ++ " TND\n"
    ++ "- Condition: " ++ eqCond ++ "\n"
    ++ "- Rental Location: " ++ eqRental ++ "\n"
    ++ "- Description: " ++ eqShort ++ "\n"
    ++ "\n📄 Detailed Description:\n" ++ eqDetail ++ "\n"
    ++ "\nPlease return a well-structured HTML contract that includes the parties\x27 names, equipment details, rental terms, and a signature section for both the owner and the client.\n"

/-- Contract status enumeration. -/
inductive CStatus where
  | draft
  | signed
deriving DecidableEq, Repr

/-- The Contract entity persisted by the store.  Fields mirror the ones
set and read in views.py and gemini_helper.py; the id is assigned by the
store on create. -/
structure Contract where
  id : Nat
  owner_name : Option String
  client_name : Option String
  equipment : EquipField
  contract_text : String
  status : CStatus
  total_value : Int
  start_date : Option String
  end_date : Option String
  signed_date : Option String
  document : Option String
deriving DecidableEq, Repr

/-- Oracle results for the external collaborators used while creating a
draft: the Gemini synthesis call (prompt text in, document text out, or a
failure) and the store create (assigning `newId`, or unavailable). -/
structure GenEnv where
  synthesize : String → Except PyErr String
  newId : Nat
  createOk : Except PyErr Unit

/-- `GeminiHelper.create_draft_contract` composed with
`generate_contract_html` (src/contracts/gemini_helper.py:63-104): build the
prompt, submit it, persist a draft Contract with
`total_value = contract_data.get("total_value") or 0`. -/
def create_draft_contract (env : GenEnv) (contract_data : ContractData)
    (profile_owner profile_client : ProfilePayload) (equipment_info : EquipInfo) :
    Except PyErr Contract :=
  match build_prompt contract_data profile_owner profile_client equipment_info with
  | .error e => .error e
  | .ok prompt =>
    match env.synthesize prompt with
    | .error e => .error e
    | .ok contract_html =>
      match env.createOk with
      | .error e => .error e
      | .ok _ => .ok
        { id := env.newId
          owner_name := contract_data.owner_name
          client_name := contract_data.client_name
          equipment := contract_data.equipment
          contract_text := contract_html
          status := .draft
          total_value := contract_data.total_value.getD 0
          start_date := contract_data.start_date
          end_date := contract_data.end_date
          signed_date := none
          document := none }

/-- A decoded queue event (src/contracts/views.py:79-101): `data.get(k)`
yields `None` for missing keys, modelled with `Option`. -/
structure Event where
  rental : Option String
  client : Option String
  equipment : EquipField
  start_date : Option String
  end_date : Option String
  total_price : Option Int
  status : Option String

/-- Oracles for the consumer callback: `fetch_profile` and
`fetch_equipment` return `None` on any failure (they catch all their
exceptions, views.py:51-69), and `gen` covers synthesis and store create. -/
structure ConsumerEnv where
  fetchProfile : Option String → ProfilePayload
  fetchEquipment : Option String → Option PDict
  gen : GenEnv

/-- A single equipment fetch result as it is stored into
`equipment_info`. -/
def fetchedEquip (r : Option PDict) : EquipInfo :=
  match r with
  | some d => .record d
  | none => .pyNone

/-- The equipment aggregation step of the callback
(src/contracts/views.py:88-92): a list of identifiers maps to the list of
per-identifier fetch results, in order; a single identifier (or `None`) is
fetched directly. -/
def aggregateEquipment (fe : Option String → Option PDict) : EquipField → EquipInfo
  | .multi l => .listOf (l.map (fun eid => fetchedEquip (fe (some eid))))
  | .single s => fetchedEquip (fe (some s))
  | .pyNone => fetchedEquip (fe none)

/-- The body of the consumer callback up to (and including) draft creation
(src/contracts/views.py:78-107).  Note the call at views.py:105: the
profile fetched for the client is passed in the `profile_owner` parameter
position of `create_draft_contract`, and the owner profile in the
`profile_client` position, exactly as in the source. -/
def callbackPipeline (env : ConsumerEnv) (body : Except PyErr Event) : Except PyErr Contract :=
  match body with
  | .error e => .error e
  | .ok data =>
    let owner_name := data.rental
    let client_name := data.client
    let equipment_id := data.equipment
    let profile_info_client := env.fetchProfile client_name
    let profile_info_owner := env.fetchProfile owner_name
    let equipment_info := aggregateEquipment env.fetchEquipment equipment_id
    let contract_data : ContractData :=
      { owner_name := owner_name
        client_name := client_name
        equipment := equipment_id
        start_date := data.start_date
        end_date := data.end_date
        total_value := data.total_price
        details := data.status.getD "" }
    create_draft_contract env.gen contract_data profile_info_client profile_info_owner equipment_info

/-- Observable actions of one callback invocation. -/
inductive CAction where
  /-- the draft Contract with this id was persisted. -/
  | persist (id : Nat)
  /-- `ch.basic_ack` was issued. -/
  | ack
  /-- the exception was logged by the `except` handler. -/
  | logError
deriving DecidableEq, Repr

/-- Result of one callback invocation. -/
structure CbResult where
  acked : Bool
  trace : List CAction
  result : Except PyErr Contract

/-- The consumer callback (src/contracts/views.py:77-110): the whole body
runs inside `try`; on success `basic_ack` is issued after the draft is
persisted, and any raised exception is caught and logged, leaving the
message unacknowledged. -/
def callback (env : ConsumerEnv) (body : Except PyErr Event) : CbResult :=
  match callbackPipeline env body with
  | .ok c => { acked := true, trace := [.persist c.id, .ack], result := .ok c }
  | .error e => { acked := false, trace := [.logError], result := .error e }

/-- The consuming loop while `Consuming` (src/contracts/views.py:112-115):
one message at a time, each dispatched to `callback`; since `callback`
catches every exception, the loop processes every delivered message. -/
def consumeLoop (env : ConsumerEnv) (msgs : List (Except PyErr Event)) : List CbResult :=
  msgs.map (callback env)

/-- `true` on `Except.ok`. -/
def exOk {ε α : Type} : Except ε α → Bool
  | .ok _ => true
  | .error _ => false

/-- No `ack` occurs in the trace before a `persist`: the first of the two
kinds of action to occur, if any, is a `persist`. -/
def noAckBeforePersist : List CAction → Bool
  | [] => true
  | .ack :: _ => false
  | .persist _ :: _ => true
  | .logError :: tl => noAckBeforePersist tl

/-- `s.split(",", 1)` followed by a two-element unpacking: `some (before,
after)` around the first comma, `none` when there is no comma (in which
case the Python unpacking raises `ValueError`). -/
def splitOnceAux : List Char → Option (List Char × List Char)
  | [] => none
  | c :: tl =>
    if c = ',' then some ([], tl)
    else match splitOnceAux tl with
      | some (a, b) => some (c :: a, b)
      | none => none

/-- String version of `splitOnceAux`. -/
def splitOnce (s : String) : Option (String × String) :=
  match splitOnceAux s.toList with
  | some (a, b) => some (String.mk a, String.mk b)
  | none => none

/-- Membership in the standard base64 alphabet `A-Z a-z 0-9 + /`. -/
def isB64Char (c : Char) : Bool :=
  ('A' ≤ c && c ≤ 'Z') || ('a' ≤ c && c ≤ 'z') || ('0' ≤ c && c ≤ '9')
    || c = '+' || c = '/'

/-- CPython `binascii.a2b_base64` in non-strict mode, the decoder behind
`base64.b64decode(s)` with the default `validate=False`.  One pass over
the input, carrying `quad_pos` (number of data characters in the current
four-character group) and `pads` (consecutive effective pad characters):
a character outside the alphabet is discarded; a `=` is ignored unless at
least two data characters are in the current group, and once the group
plus its pads reaches four, decoding terminates *successfully*, ignoring
everything after; a data character resets `pads` and advances `quad_pos`
cyclically.  At end of input, leftover data characters in the current
group are an error (`binascii.Error`, a `ValueError` subclass): one
leftover is the data-character-count error, two or three the padding
error.  The decoded bytes are abstracted as the data characters consumed
before termination — the byte values are never inspected by this
service. -/
def a2b_base64 : List Char → Nat → Nat → List Char → Except PyErr (List Char)
  | [], quad_pos, _, acc =>
    if quad_pos = 0 then .ok acc.reverse
    else if quad_pos = 1 then
      .error (.valueError "Invalid base64-encoded string: number of data characters cannot be 1 more than a multiple of 4")
    else .error (.valueError "Invalid padding")
  | c :: tl, quad_pos, pads, acc =>
    if c = '=' then
      if 2 ≤ quad_pos then
        if 4 ≤ quad_pos + (pads + 1) then .ok acc.reverse
        else a2b_base64 tl quad_pos (pads + 1) acc
      else a2b_base64 tl quad_pos pads acc
    else if isB64Char c then
      a2b_base64 tl ((quad_pos + 1) % 4) 0 (c :: acc)
    else
      a2b_base64 tl quad_pos pads acc

/-- `base64.b64decode(s)` (default `validate=False`): delegates to the
non-strict `a2b_base64` starting from an empty group. -/
def b64decode (s : String) : Except PyErr (List Char) :=
  a2b_base64 s.toList 0 0 []

/-- `owner_name.replace(' ', '_')`: the pattern is a single character, so
the replacement is a character-wise map. -/
def underscoreSpaces (s : String) : String :=
  String.mk (s.toList.map (fun c => if c = ' ' then '_' else c))

/-- `save_signature_image` (src/contracts/views.py:194-209): split the data
URI at the first comma and base64-decode the payload, raising
`ValueError("Invalid base64 image data")` on either failure; otherwise
write the file named from the owner (spaces to underscores) and the
current timestamp, returning the relative path together with the updated
file listing. -/
def save_signature_image (owner_name signature_image_data ts : String)
    (files : List String) : Except PyErr (String × List String) :=
  match splitOnce signature_image_data with
  | none => .error (.valueError "Invalid base64 image data")
  | some (_, encoded) =>
    match b64decode encoded with
    | .error _ => .error (.valueError "Invalid base64 image data")
    | .ok _ =>
      let image_name := underscoreSpaces owner_name ++ "_" ++ ts ++ ".png"
      let image_path := "signatures/" ++ image_name
      .ok (image_path, files ++ [image_path])

/-- `get_contract_or_404` (src/contracts/views.py:211-215): Django
`objects.get` raises `DoesNotExist` (translated to
`ValueError("Contract not found")`) when no row matches and
`MultipleObjectsReturned` (uncaught here) when several do. -/
def get_contract_or_404 (owner_name client_name : String) (contracts : List Contract) :
    Except PyErr Contract :=
  match contracts.filter
      (fun c => c.owner_name == some owner_name && c.client_name == some client_name) with
  | [] => .error (.valueError "Contract not found")
  | [c] => .ok c
  | _ => .error .multipleObjects

/-- The externally visible persistent state touched by the signing
endpoint: the contract table and the persisted signature-image paths. -/
structure SysState where
  contracts : List Contract
  files : List String
deriving DecidableEq, Repr

/-- The JSON body of a signing request; `request.data.get` yields `None`
for absent keys. -/
structure SignRequest where
  owner_name : Option String
  client_name : Option String
  contract_text : Option String
  signature_image : Option String
deriving DecidableEq, Repr

/-- The success payload of the signing response (views.py:153-166). -/
structure SignPayload where
  message : String
  owner_name : String
  client_name : String
  signature : String
  public_key : String
  signature_image_url : String
  contract_id : Nat
  status : CStatus
  signed_date : Option String
  total_value : Int
  start_date : Option String
  end_date : Option String
deriving DecidableEq, Repr

/-- A signing response: the 400 missing-fields rejection, the generic 500
error response carrying `str(e)`, or the 200 payload. -/
inductive SignResp where
  | missingFields
  | errorResp (msg : String)
  | ok (payload : SignPayload)
deriving DecidableEq, Repr

/-- `str(e)` for each modelled exception. -/
def errMsg : PyErr → String
  | .valueError m => m
  | .attributeError => "AttributeError"
  | .jsonDecodeError => "JSONDecodeError"
  | .multipleObjects => "MultipleObjectsReturned"
  | .synthesisError => "SynthesisError"
  | .storeError => "StorageError"

/-- Observable steps of one signing request, in order of occurrence. -/
inductive SignAction where
  /-- the contract lookup was executed. -/
  | lookup
  /-- the decoded signature image was written at this path. -/
  | writeFile (path : String)
  /-- the mutated contract row was saved. -/
  | saveContract
deriving DecidableEq, Repr

/-- Outcome of one signing request: response, resulting persistent state,
and the trace of observable steps. -/
structure SignOutcome where
  resp : SignResp
  state : SysState
  trace : List SignAction
deriving DecidableEq, Repr

/-- Per-request context for the signing endpoint: the current date and
timestamp, and the results of the crypto utilities.  `generate_keys` and
`sign_message` live in the repository module `contracts/utils.py`, which is
not part of the given sources; per the spec (§4.4) they produce fresh key
material and a signature over the text, modelled here as oracle results. -/
structure SignCtx where
  today : String
  ts : String
  keygen : Except PyErr (String × String)
  signMsg : String → String → Except PyErr String
  storeSave : Except PyErr Unit

/-- `settings.MEDIA_URL` (framework configuration, not in the sources). -/
def mediaUrl : String := "/media/"

/-- The `sign_contract` endpoint (src/contracts/views.py:130-169), step by
step: required-field truthiness check (absent or empty → 400); contract
lookup; image decode and write; key generation; signing; unconditional
mutation to `signed` and save.  Every raised exception is caught by the
outer handler and returned as a 500 `errorResp`; nothing written earlier
is rolled back. -/
def sign_contract (ctx : SignCtx) (req : SignRequest) (st : SysState) : SignOutcome :=
  match req.owner_name, req.client_name, req.contract_text, req.signature_image with
  | some ow, some cl, some tx, some img =>
    if ow = "" || cl = "" || tx = "" || img = "" then
      { resp := .missingFields, state := st, trace := [] }
    else
      match get_contract_or_404 ow cl st.contracts with
      | .error e => { resp := .errorResp (errMsg e), state := st, trace := [.lookup] }
      | .ok contract =>
        match save_signature_image ow img ctx.ts st.files with
        | .error e => { resp := .errorResp (errMsg e), state := st, trace := [.lookup] }
        | .ok (signature_image_path, files1) =>
          let st1 : SysState := { st with files := files1 }
          let tr1 : List SignAction := [.lookup, .writeFile signature_image_path]
          match ctx.keygen with
          | .error e => { resp := .errorResp (errMsg e), state := st1, trace := tr1 }
          | .ok (private_key, public_key) =>
            match ctx.signMsg tx private_key with
            | .error e => { resp := .errorResp (errMsg e), state := st1, trace := tr1 }
            | .ok signature =>
              let signed : Contract :=
                { contract with
                  signed_date := some ctx.today
                  status := .signed
                  document := some signature_image_path }
              match ctx.storeSave with
              | .error e => { resp := .errorResp (errMsg e), state := st1, trace := tr1 }
              | .ok _ =>
                { resp := .ok
                    { message := tx
                      owner_name := ow
                      client_name := cl
                      signature := signature
                      public_key := public_key
                      signature_image_url := mediaUrl ++ signature_image_path
                      contract_id := signed.id
                      status := signed.status
                      signed_date := signed.signed_date
                      total_value := signed.total_value
                      start_date := signed.start_date
                      end_date := signed.end_date }
                  state :=
                    { st1 with
                      contracts := st1.contracts.map
                        (fun c => if c.id == contract.id then signed else c) }
                  trace := tr1 ++ [.saveContract] }
  | _, _, _, _ => { resp := .missingFields, state := st, trace := [] }

/-- `true` on an `errorResp`. -/
def isErrResp : SignResp → Bool
  | .errorResp _ => true
  | _ => false

/-- `true` on an `ok` response. -/
def isOkResp : SignResp → Bool
  | .ok _ => true
  | _ => false

/-- `true` when one of the three post-validation steps of the signing
endpoint (key generation, signing, store save) fails in the given
context. -/
def signStepsFail (ctx : SignCtx) (tx : String) : Bool :=
  match ctx.keygen with
  | .error _ => true
  | .ok (private_key, _) =>
    match ctx.signMsg tx private_key with
    | .error _ => true
    | .ok _ =>
      match ctx.storeSave with
      | .error _ => true
      | .ok _ => false

/-- Written from the words of claim C8 (not from the source), for
comparison with `sanitize_profile`: a non-empty sequence normalizes to its
first element, a mapping is kept as is, anything absent or empty
normalizes to the empty mapping. -/
def sanitizeSpec : ProfilePayload → PDict
  | .seq (d :: _) => d
  | .map d => d
  | .pyNone => []
  | .seq [] => []

/-- Written from the words of claim C5 (not from the source): a string is
valid base64 when it is data characters of the standard alphabet followed
by at most two padding characters, the whole having length a multiple of
four. -/
def validBase64 (s : String) : Bool :=
  let cs := s.toList
  let dataPart := cs.takeWhile isB64Char
  let padPart := cs.drop dataPart.length
  padPart.all (fun c => c = '=') && padPart.length ≤ 2 && cs.length % 4 = 0

/-! Concrete fixtures used by the counterexamples and witnesses. -/

/-- Profile the external service returns for the owner `alice`. -/
def aliceDict : PDict := [("first_name", PVal.str "Alice")]

/-- Profile the external service returns for the client `bob`. -/
def bobDict : PDict := [("first_name", PVal.str "Bob")]

/-- Equipment record the external service returns for identifier `5`. -/
def drillDict : PDict := [("stuffname", PVal.str "Drill")]

/-- A consumer environment where both profile fetches and the fetch of
equipment `5` succeed, the synthesis service echoes the prompt (so the
generated document is observable), and the store assigns id 1. -/
def demoEnv : ConsumerEnv where
  fetchProfile := fun u =>
    if u = some "alice" then .map aliceDict
    else if u = some "bob" then .map bobDict
    else .pyNone
  fetchEquipment := fun e => if e = some "5" then some drillDict else none
  gen := { synthesize := fun p => .ok p, newId := 1, createOk := .ok () }

/-- The queue event of spec scenario 1: owner `alice`, client `bob`,
single equipment identifier `5`. -/
def demoEvent : Event where
  rental := some "alice"
  client := some "bob"
  equipment := .single "5"
  start_date := some "2025-01-01"
  end_date := some "2025-01-10"
  total_price := some 100
  status := none

/-- The same event with an equipment identifier whose fetch fails in
`demoEnv` (the service knows only id `5`). -/
def eqFailEvent : Event := { demoEvent with equipment := .single "7" }

/-- The draft Contract between `alice` and `bob`. -/
def draftC : Contract where
  id := 1
  owner_name := some "alice"
  client_name := some "bob"
  equipment := .single "5"
  contract_text := "T"
  status := .draft
  total_value := 100
  start_date := some "2025-01-01"
  end_date := some "2025-01-10"
  signed_date := none
  document := none

/-- The same Contract after a first signing: status `signed`, with a
signed date and a stored document reference. -/
def signedC : Contract :=
  { draftC with
    status := .signed
    signed_date := some "2025-01-15"
    document := some "signatures/old.png" }

/-- Store state holding the draft contract and no signature images. -/
def stDraft : SysState where
  contracts := [draftC]
  files := []

/-- Store state holding the already-signed contract. -/
def stSigned : SysState where
  contracts := [signedC]
  files := []

/-- A signing context in which key generation, signing and the store save
all succeed. -/
def okCtx : SignCtx where
  today := "2025-02-01"
  ts := "20250201120000"
  keygen := .ok ("priv", "pub")
  signMsg := fun t _ => .ok ("sig:" ++ t)
  storeSave := .ok ()

/-- The same context but key generation fails. -/
def failKeyCtx : SignCtx :=
  { okCtx with keygen := .error (.valueError "key generation failed") }

/-- A well-formed signing request with a decodable data-URI image. -/
def validReq : SignRequest where
  owner_name := some "alice"
  client_name := some "bob"
  contract_text := some "T"
  signature_image := some "data:image/png;base64,aGVsbG8="

/-- The same request with a payload that is not valid base64 (`!!!`), yet
survives CPython lenient decoding (non-alphabet characters discarded,
leaving the empty string). -/
def junkReq : SignRequest :=
  { validReq with signature_image := some "data:image/png;base64,!!!" }

/-- The same request with a payload carrying trailing junk after a valid
pad sequence (`aGVsbG8=XYZ`): not valid base64, yet CPython lenient
decoding terminates successfully at the pad and ignores the rest. -/
def trailReq : SignRequest :=
  { validReq with signature_image := some "data:image/png;base64,aGVsbG8=XYZ" }

/-- The Contract the pipeline creates from `demoEvent` in `demoEnv`.  Its
`contract_text` is the synthesized prompt verbatim (the demo synthesis
service echoes its input); note the Owner Profile section shows `Bob` (the
profile fetched for the client) and the Client Profile section `Alice`. -/
def demoExpected : Contract where
  id := 1
  owner_name := some "alice"
  client_name := some "bob"
  equipment := .single "5"
  contract_text := "\nGenerate a professional HTML equipment rental contract based on the following data:\n\n📄 Contract Details:\n- Owner Name: alice\n- Client Name: bob\n- Start Date: 2025-01-01\n- End Date: 2025-01-10\n- Total Value: 100 TND\n\n👤 Owner Profile:\n- Full Name: Bob \n- Phone: \n- Address: , , , , \n\n👤 Client Profile:\n- Full Name: Alice \n- Phone: \n- Address: , , , , \n\n🛠️ Equipment Information:\n- Name: Drill\n- Brand: \n- Location: \n- Price per day:  TND\n- Condition: \n- Rental Location: \n- Description: \n\n📄 Detailed Description:\n\n\nPlease return a well-structured HTML contract that includes the parties\x27 names, equipment details, rental terms, and a signature section for both the owner and the client.\n"
  status := .draft
  total_value := 100
  start_date := some "2025-01-01"
  end_date := some "2025-01-10"
  signed_date := none
  document := none

/-! Helper lemmas (shared). -/

/-- On success, `save_signature_image` appends exactly the returned path
to the file listing. -/
theorem save_signature_image_ok_files {ow img ts path : String}
    {fs fs1 : List String}
    (h : save_signature_image ow img ts fs = .ok (path, fs1)) :
    fs1 = fs ++ [path] := by
  unfold save_signature_image at h
  split at h
  · exact Except.noConfusion h
  · split at h
    · exact Except.noConfusion h
    · injection h with h1
      rw [Prod.ext_iff] at h1
      simp only [] at h1
      rw [← h1.1, ← h1.2]

/-- The only error `save_signature_image` raises is the base64
`ValueError`. -/
theorem save_signature_image_err {ow img ts : String} {fs : List String}
    {e : PyErr} (h : save_signature_image ow img ts fs = .error e) :
    e = .valueError "Invalid base64 image data" := by
  unfold save_signature_image at h
  split at h
  · injection h with h1
    exact h1.symm
  · split at h
    · injection h with h1
      exact h1.symm
    · exact Except.noConfusion h

/-- Fidelity of the base64 model against CPython `base64.b64decode` with
its default lenient mode, on the boundary inputs: a completing pad
sequence ends decoding successfully with trailing characters ignored
(`aGVsbG8=XYZ` decodes, `ab==ab` decodes); a leftover data character is
an error even amid pads (`a===`); a payload of only non-alphabet
characters decodes to nothing (`!!!`); leftover data characters without a
completing pad are an error (`abc`, `ab=c`); bare pads are ignored
(`====`). -/
theorem b64decode_lenient_probes :
    b64decode "aGVsbG8=XYZ" = .ok "aGVsbG8".toList ∧
    b64decode "ab==ab" = .ok ['a', 'b'] ∧
    exOk (b64decode "a===") = false ∧
    b64decode "!!!" = .ok [] ∧
    exOk (b64decode "abc") = false ∧
    exOk (b64decode "ab=c") = false ∧
    b64decode "====" = .ok [] :=
  ⟨rfl, rfl, rfl, rfl, rfl, rfl, rfl⟩

/-! Claim theorems. -/

/-- C8: `_sanitize_profile` normalizes every fetched profile payload to a
single mapping exactly as the claim states: a non-empty sequence to its
first element, a mapping to itself, and an absent or empty payload
(`None`, empty list, empty mapping) to the empty mapping. -/
theorem C8_theorem : ∀ p : ProfilePayload, sanitize_profile p = sanitizeSpec p := by
  intro p
  cases p with
  | pyNone => rfl
  | seq l => cases l <;> rfl
  | map d => cases d <;> rfl

/-- C6: for an event whose equipment field is a list of N identifiers, the
aggregation step yields a list of exactly N per-identifier fetch results,
the i-th being the fetch result of the i-th identifier, regardless of
individual fetch failures. -/
theorem C6_theorem : ∀ (fe : Option String → Option PDict) (l : List String),
    aggregateEquipment fe (.multi l) =
      .listOf (l.map (fun eid => fetchedEquip (fe (some eid)))) ∧
    (l.map (fun eid => fetchedEquip (fe (some eid)))).length = l.length ∧
    ∀ i : Nat, (l.map (fun eid => fetchedEquip (fe (some eid))))[i]? =
      (l[i]?).map (fun eid => fetchedEquip (fe (some eid))) := by
  intro fe l
  refine ⟨rfl, List.length_map _ _, ?_⟩
  intro i
  simp

/-- C4: the consumer acknowledges a message exactly when the draft was
created: the ack is issued only after the persist step, and any failure
(decode, fetch-induced, synthesis, store) leaves the message
unacknowledged. -/
theorem C4_theorem : ∀ (env : ConsumerEnv) (body : Except PyErr Event),
    (callback env body).acked = exOk (callbackPipeline env body) ∧
    (CAction.ack ∈ (callback env body).trace ↔
      exOk (callbackPipeline env body) = true) ∧
    noAckBeforePersist (callback env body).trace = true := by
  intro env body
  cases h : callbackPipeline env body with
  | ok c => simp [callback, h, exOk, noAckBeforePersist]
  | error e => simp [callback, h, exOk, noAckBeforePersist]

/-- C10: the callback is total — every processing failure is caught inside
it — so the consuming loop processes every delivered message: processing a
message in the middle of a stream is unaffected by the messages around it
and the stream is consumed in full. -/
theorem C10_theorem : ∀ (env : ConsumerEnv)
    (ms1 ms2 : List (Except PyErr Event)) (m : Except PyErr Event),
    consumeLoop env (ms1 ++ m :: ms2) =
      consumeLoop env ms1 ++ callback env m :: consumeLoop env ms2 ∧
    (consumeLoop env (ms1 ++ m :: ms2)).length = ms1.length + 1 + ms2.length := by
  intro env ms1 ms2 m
  constructor
  · simp [consumeLoop]
  · simp only [consumeLoop, List.length_map, List.length_append, List.length_cons]
    omega

/-- C9: a signing request in which any of the four required fields is
present but equal to the empty string is rejected with the
missing-required-fields validation error — the same response an absent
field produces — with the state untouched and before any lookup or side
effect (empty trace). -/
theorem C9_theorem (ctx : SignCtx) (st : SysState) (ow cl tx img : String)
    (h : ow = "" ∨ cl = "" ∨ tx = "" ∨ img = "") :
    sign_contract ctx
      { owner_name := some ow
        client_name := some cl
        contract_text := some tx
        signature_image := some img } st =
      { resp := .missingFields, state := st, trace := [] } := by
  unfold sign_contract
  rcases h with h | h | h | h <;> subst h <;> simp

/-- C9 witness: the theorem applied at an empty owner name. -/
theorem C9_witness :
    sign_contract okCtx
      { owner_name := some ""
        client_name := some "bob"
        contract_text := some "T"
        signature_image := some "data:image/png;base64,aGVsbG8=" } stDraft =
      { resp := .missingFields, state := stDraft, trace := [] } :=
  C9_theorem okCtx stDraft "" "bob" "T" "data:image/png;base64,aGVsbG8="
    (Or.inl rfl)

/-- C2 counterexample: the claim fails for the equipment component.
With both profiles fetched successfully but the equipment record absent
(its fetch returned nothing), prompt construction raises `AttributeError`
instead of rendering empty strings, and the pipeline aborts before
synthesis — both at the prompt level and through the consumer pipeline. -/
theorem C2_counterexample :
    build_prompt
      { owner_name := some "alice"
        client_name := some "bob"
        equipment := .single "7"
        start_date := some "2025-01-01"
        end_date := some "2025-01-10"
        total_value := some 100
        details := "" }
      (.map aliceDict) (.map bobDict) .pyNone = .error .attributeError ∧
    callbackPipeline demoEnv (.ok eqFailEvent) = .error .attributeError := by
  exact ⟨rfl, rfl⟩

/-- C2 as amended: absent owner and client profiles never abort prompt
construction — every profile field renders as the empty string — and the
prompt succeeds for any fetched equipment record; but an absent equipment
record, or equipment fetched as a list, raises `AttributeError`, so prompt
construction is not total in the equipment component. -/
theorem C2_theorem : ∀ (cd : ContractData) (e : PDict) (l : List EquipInfo),
    exOk (build_prompt cd .pyNone .pyNone (.record e)) = true ∧
    profileBlock (sanitize_profile .pyNone) =
      .ok "- Full Name:  \n- Phone: \n- Address: , , , , \n" ∧
    build_prompt cd .pyNone .pyNone .pyNone = .error .attributeError ∧
    build_prompt cd .pyNone .pyNone (.listOf l) = .error .attributeError := by
  intro cd e l
  exact ⟨rfl, rfl, rfl, rfl⟩

set_option maxRecDepth 8192 in
/-- C3: evaluated at the failing input — an event with owner `alice` and
client `bob`, where the profile service returns `Alice` for `alice` and
`Bob` for `bob` and the synthesis service echoes its prompt — the created
contract document renders the profile fetched for the client under
`Owner Profile` and the one fetched for the owner under `Client Profile`:
the two fetched profiles are interchanged at the
`create_draft_contract` call (views.py:105). -/
theorem C3_theorem :
    demoEnv.fetchProfile demoEvent.rental = .map aliceDict ∧
    demoEnv.fetchProfile demoEvent.client = .map bobDict ∧
    callbackPipeline demoEnv (.ok demoEvent) = .ok demoExpected := by
  exact ⟨rfl, rfl, rfl⟩

/-- C1 counterexample: a signing request for a contract whose status is
already `signed` does not fail with a conflict error — it returns a
success response — and the stored contract is modified (its signed date,
document reference and the overwrite itself are visible in the store). -/
theorem C1_counterexample :
    isOkResp (sign_contract okCtx validReq stSigned).resp = true ∧
    (sign_contract okCtx validReq stSigned).state.contracts ≠
      stSigned.contracts := by
  decide

/-- C1 as amended: the endpoint performs no status check, so a signing
request for an already-signed contract (valid fields, decodable image,
successful key generation, signing and store write) succeeds, returns the
full success payload, and overwrites the contract's signed date, status
and document reference — the draft-to-signed transition is unguarded and
can be re-executed; no conflict error exists on this path. -/
theorem C1_theorem (ctx : SignCtx) (st : SysState)
    (ow cl tx img path : String) (c : Contract) (fs1 : List String)
    (priv pub sig : String)
    (how : ow ≠ "") (hcl : cl ≠ "") (htx : tx ≠ "") (himg : img ≠ "")
    (hfind : get_contract_or_404 ow cl st.contracts = .ok c)
    (_hsigned : c.status = .signed)
    (hsave : save_signature_image ow img ctx.ts st.files = .ok (path, fs1))
    (hkg : ctx.keygen = .ok (priv, pub))
    (hsm : ctx.signMsg tx priv = .ok sig)
    (hst : ctx.storeSave = .ok ()) :
    sign_contract ctx
      { owner_name := some ow
        client_name := some cl
        contract_text := some tx
        signature_image := some img } st =
      { resp := .ok
          { message := tx
            owner_name := ow
            client_name := cl
            signature := sig
            public_key := pub
            signature_image_url := mediaUrl ++ path
            contract_id := c.id
            status := .signed
            signed_date := some ctx.today
            total_value := c.total_value
            start_date := c.start_date
            end_date := c.end_date }
        state :=
          { contracts := st.contracts.map
              (fun x => if x.id == c.id then
                { c with
                  signed_date := some ctx.today
                  status := .signed
                  document := some path } else x)
            files := st.files ++ [path] }
        trace := [.lookup, .writeFile path, .saveContract] } := by
  have hfs : fs1 = st.files ++ [path] := save_signature_image_ok_files hsave
  subst hfs
  unfold sign_contract
  simp [how, hcl, htx, himg, hfind, hsave, hkg, hsm, hst]

/-- C1 witness: the amended theorem applied to the concrete already-signed
store. -/
theorem C1_witness :
    signedC.status = .signed ∧
    isOkResp (sign_contract okCtx
      { owner_name := some "alice"
        client_name := some "bob"
        contract_text := some "T"
        signature_image := some "data:image/png;base64,aGVsbG8=" } stSigned).resp = true := by
  refine ⟨rfl, ?_⟩
  rw [C1_theorem okCtx stSigned "alice" "bob" "T"
    "data:image/png;base64,aGVsbG8=" "signatures/alice_20250201120000.png"
    signedC ["signatures/alice_20250201120000.png"] "priv" "pub" "sig:T"
    (by decide) (by decide) (by decide) (by decide) rfl rfl rfl rfl rfl rfl]
  rfl

/-- C5 counterexample: payloads that are not valid base64 can be accepted.
`!!!` survives because lenient decoding discards the non-alphabet
characters, and `aGVsbG8=XYZ` because decoding terminates successfully at
the pad sequence and ignores the trailing junk; in both cases the request
succeeds, a signature file is written and the contract is signed, where
the claim requires a validation failure with no side effect. -/
theorem C5_counterexample :
    validBase64 "!!!" = false ∧
    isOkResp (sign_contract okCtx junkReq stDraft).resp = true ∧
    (sign_contract okCtx junkReq stDraft).state.files =
      ["signatures/alice_20250201120000.png"] ∧
    validBase64 "aGVsbG8=XYZ" = false ∧
    isOkResp (sign_contract okCtx trailReq stDraft).resp = true ∧
    (sign_contract okCtx trailReq stDraft).state.files =
      ["signatures/alice_20250201120000.png"] := by
  decide

/-- C5 as amended: a request whose image lacks the header/payload comma
separator, or whose payload is rejected by CPython's lenient base64
decoder (non-alphabet characters discarded, a completing pad sequence
ends decoding successfully ignoring trailing input, leftover data
characters at end of input are an error), fails with the
`Invalid base64 image data` validation error before any side effect: the
state is unchanged, no file is written and the contract is not mutated
(only the preceding lookup has run).  Payloads that are not valid base64
but are accepted by the lenient decoder go on to write a file. -/
theorem C5_theorem (ctx : SignCtx) (st : SysState)
    (ow cl tx img : String) (c : Contract) (e : PyErr)
    (how : ow ≠ "") (hcl : cl ≠ "") (htx : tx ≠ "") (himg : img ≠ "")
    (hfind : get_contract_or_404 ow cl st.contracts = .ok c)
    (hsave : save_signature_image ow img ctx.ts st.files = .error e) :
    sign_contract ctx
      { owner_name := some ow
        client_name := some cl
        contract_text := some tx
        signature_image := some img } st =
      { resp := .errorResp "Invalid base64 image data"
        state := st
        trace := [.lookup] } := by
  have he : e = .valueError "Invalid base64 image data" :=
    save_signature_image_err hsave
  subst he
  unfold sign_contract
  simp [how, hcl, htx, himg, hfind, hsave, errMsg]

/-- C5 witness: the amended theorem applied to a request whose image has
no comma separator. -/
theorem C5_witness :
    sign_contract okCtx
      { owner_name := some "alice"
        client_name := some "bob"
        contract_text := some "T"
        signature_image := some "not-a-data-uri" } stDraft =
      { resp := .errorResp "Invalid base64 image data"
        state := stDraft
        trace := [.lookup] } :=
  C5_theorem okCtx stDraft "alice" "bob" "T" "not-a-data-uri" draftC
    (.valueError "Invalid base64 image data")
    (by decide) (by decide) (by decide) (by decide) rfl rfl

/-- C7 counterexample: when key generation fails after the image was
saved, the endpoint returns an error response, yet the signature-image
file remains persisted — partial state beyond the store update is left
externally visible, contradicting the claim. -/
theorem C7_counterexample :
    isErrResp (sign_contract failKeyCtx validReq stDraft).resp = true ∧
    (sign_contract failKeyCtx validReq stDraft).state.files =
      ["signatures/alice_20250201120000.png"] := by
  decide

/-- C7 as amended: when any post-validation step (key generation, signing,
or the final store save) fails after the image was saved, the endpoint
returns an error response and the contract table is unmodified, but the
already-written signature-image file is not removed: it remains persisted
in the returned state. -/
theorem C7_theorem (ctx : SignCtx) (st : SysState)
    (ow cl tx img path : String) (c : Contract) (fs1 : List String)
    (how : ow ≠ "") (hcl : cl ≠ "") (htx : tx ≠ "") (himg : img ≠ "")
    (hfind : get_contract_or_404 ow cl st.contracts = .ok c)
    (hsave : save_signature_image ow img ctx.ts st.files = .ok (path, fs1))
    (hfail : signStepsFail ctx tx = true) :
    isErrResp (sign_contract ctx
      { owner_name := some ow
        client_name := some cl
        contract_text := some tx
        signature_image := some img } st).resp = true ∧
    (sign_contract ctx
      { owner_name := some ow
        client_name := some cl
        contract_text := some tx
        signature_image := some img } st).state =
      { contracts := st.contracts, files := st.files ++ [path] } ∧
    (sign_contract ctx
      { owner_name := some ow
        client_name := some cl
        contract_text := some tx
        signature_image := some img } st).trace =
      [.lookup, .writeFile path] := by
  have hfs : fs1 = st.files ++ [path] := save_signature_image_ok_files hsave
  subst hfs
  unfold signStepsFail at hfail
  cases hkg : ctx.keygen with
  | error e =>
    unfold sign_contract
    simp [how, hcl, htx, himg, hfind, hsave, hkg, isErrResp]
  | ok kp =>
    obtain ⟨priv, pub⟩ := kp
    rw [hkg] at hfail
    simp only [] at hfail
    cases hsm : ctx.signMsg tx priv with
    | error e =>
      unfold sign_contract
      simp [how, hcl, htx, himg, hfind, hsave, hkg, hsm, isErrResp]
    | ok sig =>
      rw [hsm] at hfail
      simp only [] at hfail
      cases hst : ctx.storeSave with
      | error e =>
        unfold sign_contract
        simp [how, hcl, htx, himg, hfind, hsave, hkg, hsm, hst, isErrResp]
      | ok u =>
        rw [hst] at hfail
        simp at hfail

/-- C7 witness: the amended theorem applied to the key-generation-failure
context over the draft store. -/
theorem C7_witness :
    (sign_contract failKeyCtx validReq stDraft).state =
      { contracts := stDraft.contracts
        files := stDraft.files ++ ["signatures/alice_20250201120000.png"] } :=
  (C7_theorem failKeyCtx stDraft "alice" "bob" "T"
    "data:image/png;base64,aGVsbG8=" "signatures/alice_20250201120000.png"
    draftC ["signatures/alice_20250201120000.png"]
    (by decide) (by decide) (by decide) (by decide) rfl rfl rfl).2.1

end ContractService
